import Mathlib

/-!
Verification of the real-time Q&A client core: the connection lifecycle
manager (`src/app/hooks/useWebSocket.ts`), the message-driven reconciler
(`useQuestions`), and the HTTP backend wrapper (`src/app/utils/backend.ts`).

The embedding is shallow: each TypeScript function is translated into an
executable Lean definition; the mutable refs and timers of the connection
manager become an explicit state record with a step function over
environment/consumer events.
-/

/-- Union type `Question.status`: `'Pending' | 'Escalated' | 'Answered'`. -/
inductive Status where
  | Pending
  | Escalated
  | Answered
deriving DecidableEq, Repr

/-- Record `Answer` (`part_001` lines 13-18 / `backend.ts`): answer id,
optional author id, body text, creation timestamp (ISO string). -/
structure Answer where
  answer_id : Int
  user_id : Option Int
  message : String
  timestamp : String
deriving DecidableEq, Repr

/-- Record `Question` (`part_001` lines 4-11 / `backend.ts`): server-assigned
id, optional author id, body, status, creation timestamp, ordered answers. -/
structure Question where
  question_id : Int
  user_id : Option Int
  message : String
  status : Status
  timestamp : String
  answers : List Answer
deriving DecidableEq, Repr

/-- The dynamically-typed `data` field of an inbound frame, restricted to the
shapes the handlers actually inspect: a JSON array of questions, a single
question object, or a nullish/absent value. -/
inductive WSData where
  | arr (qs : List Question)
  | obj (q : Question)
  | nullish
deriving DecidableEq, Repr

/-- Inbound frame shape `{ type: string, data?: unknown, timestamp?: string }`
(`useWebSocket.ts` lines 3-7). -/
structure WSMessage where
  type : String
  data : WSData
  timestamp : Option String := none
deriving DecidableEq, Repr

/-- Snapshot coercion `data || []` used by the replace-all branches (`setQuestions(data || [])`).
An array is taken as-is, a nullish value becomes the empty list.  A plain
object in `data` would put a non-array into the store (dynamically ill-typed
JS outcome); that case is outside the model and returns `none`. -/
def snapshotData : WSData → Option (List Question)
  | .arr qs => some qs
  | .nullish => some []
  | .obj _ => none

/-- Membership test used by the duplicate guard:
`prev.some((q) => q.question_id === data.question_id)`. -/
def containsId (prev : List Question) (i : Int) : Bool :=
  prev.any (fun q => q.question_id == i)

/-- The `'new_question'` branch (`part_001` lines 92-102): prepend `data`
unless a question with the same id is already present. -/
def applyNewQuestion (d : Question) (prev : List Question) : List Question :=
  if containsId prev d.question_id then prev
  else d :: prev

/-- The `'answer_added'` / `'question_status_changed'` branches (`part_001`
lines 104-121): replace the full record of every question whose id matches
`data.question_id`, keep the rest. -/
def applyReplaceById (d : Question) (prev : List Question) : List Question :=
  prev.map (fun q => if q.question_id == d.question_id then d else q)

/-- The reconciler switch of `useQuestions` (`part_001` lines 83-141), keyed
by the frame's `type` string, sequential as in the JS `switch`.  Returns
`none` exactly for the dynamically ill-typed combinations whose JS behavior
is untyped (property access / array spread on a payload of the wrong shape);
every combination a claim exercises is `some`. -/
def useQuestionsStep (prev : List Question) (type : String) (data : WSData) :
    Option (List Question) :=
  if type = "initial_data" ∨ type = "questions_list" ∨ type = "questions" then
    snapshotData data
  else if type = "new_question" then
    match data with
    | .obj d => some (applyNewQuestion d prev)
    | _ => none
  else if type = "answer_added" then
    match data with
    | .obj d => some (applyReplaceById d prev)
    | _ => none
  else if type = "question_status_changed" then
    match data with
    | .obj d => some (applyReplaceById d prev)
    | _ => none
  else if type = "refresh_data" then
    snapshotData data
  else if type = "pong" then
    some prev
  else
    -- default case: `if (Array.isArray(data)) setQuestions(data)` else ignore
    match data with
    | .arr qs => some qs
    | _ => some prev

/-- Folding a sequence of `new_question` events into the store. -/
def applyNewQuestions (store : List Question) (evs : List Question) :
    List Question :=
  evs.foldl (fun s d => applyNewQuestion d s) store

/-- The store holds pairwise-distinct question ids. -/
def noDupIds (l : List Question) : Prop :=
  (l.map (fun q => q.question_id)).Nodup

example : applyNewQuestion ⟨1, none, "a", .Pending, "t", []⟩ [] =
    [⟨1, none, "a", .Pending, "t", []⟩] := by decide

example : useQuestionsStep [] "bogus" (.arr []) = some [] := by decide

/-!  Connection manager (`useWebSocket.ts`).

The hook's mutable refs and React state become one record; the timers are
explicit (`reconnectTimeout` holds the delay of the pending one-shot,
`pingInterval` is the armed 30s interval); `ws` is `some phase` while
the hook's handlers are attached to a live socket. -/

/-- Readiness of the underlying socket while the hook's handlers are
attached: `CONNECTING` or `OPEN`. -/
inductive SocketPhase where
  | connecting
  | opened
deriving DecidableEq, Repr

/-- The hook options that the modelled code paths read
(`useWebSocket.ts` lines 20-30, with the source defaults). -/
structure WSConfig where
  reconnect : Bool := true
  reconnectInterval : Nat := 3000
  maxReconnectAttempts : Nat := 10
deriving Repr

/-- The hook's refs and state: `isMountedRef`, `isConnected`, `lastMessage`,
`wsRef` (with handlers attached), `reconnectTimeoutRef`, `pingIntervalRef`,
`reconnectAttemptsRef`, plus a count of ping frames sent so far (to observe
"no send after teardown"). -/
structure WSState where
  isMounted : Bool
  isConnected : Bool
  lastMessage : Option WSMessage
  ws : Option SocketPhase
  reconnectTimeout : Option Nat
  pingInterval : Bool
  reconnectAttempts : Nat
  sentPings : Nat
deriving DecidableEq, Repr

/-- Function `disconnect` (`useWebSocket.ts` lines 46-68): clear both timers, null the
handlers and close/drop the socket. -/
def disconnect (s : WSState) : WSState :=
  { s with reconnectTimeout := none, pingInterval := false, ws := none }

/-- The backoff delay the `onclose` handler computes after bumping the
attempt counter to `attempt`:
`Math.min(reconnectInterval * Math.pow(2, attempt - 1), 30000)`. -/
def backoffDelay (base attempt : Nat) : Nat :=
  min (base * 2 ^ (attempt - 1)) 30000

/-- Function `connect` (`useWebSocket.ts` lines 71-155): no-op when unmounted or the
attempt cap is reached; otherwise tear down any existing connection and run
`new WebSocket(wsUrl)` — `ctorOk = true` means the constructor returned a
socket (handlers attached, `CONNECTING`), `ctorOk = false` means it threw
synchronously and the `catch` only bumps the attempt counter. -/
def connect (cfg : WSConfig) (ctorOk : Bool) (s : WSState) : WSState :=
  if s.isMounted = false ∨ cfg.maxReconnectAttempts ≤ s.reconnectAttempts then
    s
  else
    let s' := disconnect s
    if ctorOk then { s' with ws := some .connecting }
    else { s' with reconnectAttempts := s'.reconnectAttempts + 1 }

/-- Events the environment or the consumer can deliver to one hook
instance. -/
inductive Step where
  | connectCall (ctorOk : Bool)
  | openSignal
  | closeSignal
  | messageSignal (frame : Except String WSMessage)
  | reconnectFire (ctorOk : Bool)
  | pingFire
  | disconnectCall
  | unmountCleanup
deriving Repr

/-- One step of the connection manager.  Each branch is the corresponding
handler of `useWebSocket.ts`; an event whose precondition does not hold (no
live socket for a transport signal, no pending timer for a fire) leaves the
state unchanged. -/
def stepFn (cfg : WSConfig) (s : WSState) : Step → WSState
  | .connectCall ctorOk => connect cfg ctorOk s
  | .openSignal =>
    -- `ws.onopen` (lines 86-100): reset attempts, flag connected, arm ping
    match s.ws with
    | some .connecting =>
      let s' := { s with ws := some SocketPhase.opened }
      if s'.isMounted then
        { s' with reconnectAttempts := 0, isConnected := true,
                  pingInterval := true }
      else s'
    | _ => s
  | .closeSignal =>
    -- `ws.onclose` (lines 120-148): socket is gone; when mounted, drop the
    -- connected flag, clear the ping interval and schedule the backoff retry
    match s.ws with
    | some _ =>
      let s' := { s with ws := (none : Option SocketPhase) }
      if s'.isMounted then
        let s'' := { s' with isConnected := false, pingInterval := false }
        if cfg.reconnect = true ∧
            s''.reconnectAttempts < cfg.maxReconnectAttempts then
          { s'' with
            reconnectAttempts := s''.reconnectAttempts + 1,
            reconnectTimeout :=
              some (backoffDelay cfg.reconnectInterval
                (s''.reconnectAttempts + 1)) }
        else s''
      else s'
    | none => s
  | .messageSignal frame =>
    -- `ws.onmessage` (lines 102-111): parse, store on success, log and drop
    -- the frame on parse failure
    match s.ws with
    | some _ =>
      if s.isMounted then
        match frame with
        | .ok m => { s with lastMessage := some m }
        | .error _ => s
      else s
    | none => s
  | .reconnectFire ctorOk =>
    -- the `setTimeout(() => connect(), backoffDelay)` one-shot fires
    match s.reconnectTimeout with
    | some _ => connect cfg ctorOk { s with reconnectTimeout := none }
    | none => s
  | .pingFire =>
    -- the 30s interval tick: send a ping only while the socket is OPEN
    if s.pingInterval then
      if s.ws = some SocketPhase.opened then
        { s with sentPings := s.sentPings + 1 }
      else s
    else s
  | .disconnectCall => disconnect s
  | .unmountCleanup =>
    -- effect cleanup (lines 173-176): drop the mounted flag, then disconnect
    disconnect { s with isMounted := false }

/-- Run a sequence of steps. -/
def runSteps (cfg : WSConfig) (s : WSState) (trace : List Step) : WSState :=
  trace.foldl (stepFn cfg) s

/-- A freshly opened connection: mounted, connected, attempt counter reset,
ping interval armed, no pending reconnect timer. -/
def openState : WSState :=
  { isMounted := true, isConnected := true, lastMessage := none,
    ws := some .opened, reconnectTimeout := none, pingInterval := true,
    reconnectAttempts := 0, sentPings := 0 }

/-- The state reached after the n-th consecutive close starting from a fresh
open connection: each round the pending reconnect timer (if any) fires, the
constructor succeeds, and the new socket fails again. -/
def afterCloses (cfg : WSConfig) : Nat → WSState
  | 0 => openState
  | n + 1 =>
    stepFn cfg (stepFn cfg (afterCloses cfg n) (.reconnectFire true))
      .closeSignal

example : (afterCloses {} 1).reconnectTimeout = some 3000 := by decide
example :
    (afterCloses { reconnectInterval := 1000 } 6).reconnectTimeout =
      some 30000 := by decide

/-!  Backend HTTP wrapper (`src/app/utils/backend.ts`). -/

/-- The parsed JSON body `await res.json()` returns: the payload itself plus
the `data.detail?.msg || data.detail` error-message chain collapsed to an
optional string. -/
structure ApiBody where
  detail : Option String := none
  payload : String := ""
deriving DecidableEq, Repr

/-- The `||` chain `data.detail?.msg || data.detail || 'API Error'`: an
absent or empty (falsy) detail falls through to the generic message. -/
def detailMessage (data : ApiBody) : String :=
  match data.detail with
  | some s => if s = "" then "API Error" else s
  | none => "API Error"

/-- What the two awaited external calls inside `fetchAPI` produced:
`res.ok` from `fetch` and the outcome of `res.json()` (which rejects on a
malformed body).  `fetch` itself rejecting (network error) is the `.error`
case of the `Except` fed to `fetchAPI`. -/
structure FetchResponse where
  ok : Bool
  jsonResult : Except String ApiBody
deriving Repr

/-- Method `Backend.fetchAPI` (`backend.ts` lines 58-77) as a function of the fetch
outcome: a network error rejects, a body that fails to parse rejects, a
non-OK response throws `Error(data.detail?.msg || data.detail || 'API
Error')`, otherwise the parsed body is returned. -/
def fetchAPI (o : Except String FetchResponse) : Except String ApiBody :=
  match o with
  | .error e => .error e
  | .ok res =>
    match res.jsonResult with
    | .error e => .error e
    | .ok data =>
      if res.ok then .ok data
      else .error (detailMessage data)

/-- Method `Backend.getUser` (`backend.ts` lines 121-126):
`this.fetchAPI('/api/auth/me').catch(() => null)` — a rejected `fetchAPI`
promise resolves to `null` (`none`), a fulfilled one resolves to its data. -/
def getUser (o : Except String FetchResponse) : Except String (Option ApiBody) :=
  match fetchAPI o with
  | .ok data => .ok (some data)
  | .error _ => .ok none

/-!  Priority projection. -/

/-- Modelled from the spec: status rank used by the consumer-facing priority
ordering, `Escalated(3) > Pending(2) > Answered(1)` (spec section 4.3).  No
source file under `src/` implements this projection; the definition follows
the spec's words. -/
def statusRank : Status → Nat
  | .Escalated => 3
  | .Pending => 2
  | .Answered => 1

/-- Modelled from the spec: the priority order — primary key status rank
descending, secondary key creation timestamp descending among equal ranks.
`priorityGE a b` says `a` may appear before `b`. -/
def priorityGE (a b : Question) : Prop :=
  statusRank b.status < statusRank a.status ∨
    (statusRank a.status = statusRank b.status ∧ b.timestamp ≤ a.timestamp)

instance : DecidableRel priorityGE := fun a b => by
  unfold priorityGE; infer_instance

instance : IsTotal Question priorityGE where
  total a b := by
    unfold priorityGE
    rcases Nat.lt_trichotomy (statusRank a.status) (statusRank b.status) with
      h | h | h
    · exact Or.inr (Or.inl h)
    · rcases le_total a.timestamp b.timestamp with ht | ht
      · exact Or.inr (Or.inr ⟨h.symm, ht⟩)
      · exact Or.inl (Or.inr ⟨h, ht⟩)
    · exact Or.inl (Or.inl h)

instance : IsTrans Question priorityGE where
  trans a b c hab hbc := by
    unfold priorityGE at *
    rcases hab with h1 | ⟨h1, t1⟩
    · rcases hbc with h2 | ⟨h2, t2⟩
      · exact Or.inl (h2.trans h1)
      · exact Or.inl (h2 ▸ h1)
    · rcases hbc with h2 | ⟨h2, t2⟩
      · exact Or.inl (h1 ▸ h2)
      · exact Or.inr ⟨h1.trans h2, t2.trans t1⟩

/-- Modelled from the spec: the pure projection exposing questions ordered by
priority (spec section 4.3), as a stable sort of the stored list. -/
def prioritySort (qs : List Question) : List Question :=
  List.insertionSort priorityGE qs

/-- The inbound pipeline from raw frames to the question store: `onmessage`
parses each frame (a parse failure is caught and the frame dropped,
`useWebSocket.ts` lines 102-111), and the `useQuestions` effect folds each
parsed message into the store (`part_001` lines 77-142). -/
def framesToStore (store : List Question)
    (frames : List (Except String WSMessage)) : List Question :=
  frames.foldl (fun st f =>
    match f with
    | .error _ => st
    | .ok m => (useQuestionsStep st m.type m.data).getD st) store

/-- Sample questions used in concrete instantiations. -/
def exAnswered : Question := ⟨1, none, "a", .Answered, "t1", []⟩

def exPending : Question := ⟨2, none, "b", .Pending, "t2", []⟩

def exEscalated : Question := ⟨3, none, "c", .Escalated, "t3", []⟩

instance (l : List Question) : Decidable (noDupIds l) := by
  unfold noDupIds; infer_instance

/-!  Helper lemmas. -/

lemma containsId_iff (l : List Question) (i : Int) :
    containsId l i = true ↔ i ∈ l.map (fun q => q.question_id) := by
  simp [containsId, List.any_eq_true, List.mem_map]

lemma containsId_false_iff (l : List Question) (i : Int) :
    containsId l i = false ↔ ∀ q ∈ l, q.question_id ≠ i := by
  simp [containsId, List.any_eq_false]

lemma applyNewQuestion_mem (d : Question) (l : List Question)
    (h : containsId l d.question_id = true) : applyNewQuestion d l = l := by
  simp [applyNewQuestion, h]

lemma applyNewQuestion_not_mem (d : Question) (l : List Question)
    (h : containsId l d.question_id = false) :
    applyNewQuestion d l = d :: l := by
  simp [applyNewQuestion, h]

lemma applyNewQuestion_noDupIds (d : Question) (l : List Question)
    (h : noDupIds l) : noDupIds (applyNewQuestion d l) := by
  by_cases hc : containsId l d.question_id
  · rwa [applyNewQuestion_mem d l hc]
  · rw [applyNewQuestion_not_mem d l (by simpa using hc)]
    unfold noDupIds at *
    rw [List.map_cons, List.nodup_cons]
    refine ⟨fun hm => ?_, h⟩
    exact hc ((containsId_iff l d.question_id).mpr hm)

lemma applyNewQuestions_cons (store : List Question) (d : Question)
    (tl : List Question) :
    applyNewQuestions store (d :: tl) =
      applyNewQuestions (applyNewQuestion d store) tl := by
  simp [applyNewQuestions]

lemma applyNewQuestions_noDupIds (evs : List Question) :
    ∀ store, noDupIds store → noDupIds (applyNewQuestions store evs) := by
  induction evs with
  | nil => intro store h; simpa [applyNewQuestions] using h
  | cons d tl ih =>
    intro store h
    rw [applyNewQuestions_cons]
    exact ih _ (applyNewQuestion_noDupIds d store h)

/-- A state on which teardown has completed: unmounted, handlers detached,
both timers cleared. -/
def tornDown (s : WSState) : Prop :=
  s.isMounted = false ∧ s.ws = none ∧ s.reconnectTimeout = none ∧
    s.pingInterval = false

lemma disconnect_tornDown_eq (s : WSState) (h : tornDown s) :
    disconnect s = s := by
  obtain ⟨h1, h2, h3, h4⟩ := h
  cases s
  simp_all [disconnect]

lemma stepFn_tornDown (cfg : WSConfig) (s : WSState) (h : tornDown s)
    (e : Step) : stepFn cfg s e = s := by
  obtain ⟨h1, h2, h3, h4⟩ := h
  cases e with
  | connectCall ok => simp [stepFn, connect, h1]
  | openSignal => simp [stepFn, h2]
  | closeSignal => simp [stepFn, h2]
  | messageSignal f => simp [stepFn, h2]
  | reconnectFire ok => simp [stepFn, h3]
  | pingFire => simp [stepFn, h4]
  | disconnectCall => exact disconnect_tornDown_eq s ⟨h1, h2, h3, h4⟩
  | unmountCleanup =>
    have hs : { s with isMounted := false } = s := by cases s; simp_all
    show disconnect { s with isMounted := false } = s
    rw [hs]
    exact disconnect_tornDown_eq s ⟨h1, h2, h3, h4⟩

lemma runSteps_tornDown (cfg : WSConfig) (s : WSState) (h : tornDown s)
    (trace : List Step) : runSteps cfg s trace = s := by
  induction trace with
  | nil => rfl
  | cons e tl ih =>
    show runSteps cfg (stepFn cfg s e) tl = s
    rw [stepFn_tornDown cfg s h e]
    exact ih

lemma unmount_tornDown (cfg : WSConfig) (s : WSState) :
    tornDown (stepFn cfg s .unmountCleanup) := by
  show tornDown (disconnect { s with isMounted := false })
  simp [disconnect, tornDown]

/-- The state description reached after n consecutive closes (n ≥ 1) of the
backoff cycle: unmounted flag still set, socket gone, attempt counter at n,
the n-th backoff one-shot pending. -/
def closedState (cfg : WSConfig) (n : Nat) : WSState :=
  { isMounted := true, isConnected := false, lastMessage := none,
    ws := none,
    reconnectTimeout := some (backoffDelay cfg.reconnectInterval n),
    pingInterval := false, reconnectAttempts := n, sentPings := 0 }

lemma afterCloses_eq (cfg : WSConfig) (hr : cfg.reconnect = true) :
    ∀ n : Nat, 1 ≤ n → n ≤ cfg.maxReconnectAttempts →
      afterCloses cfg n = closedState cfg n := by
  intro n
  induction n with
  | zero => intro h; exact absurd h (by omega)
  | succ n ih =>
    intro h1 h2
    by_cases hn0 : n = 0
    · subst hn0
      have hmax : 0 < cfg.maxReconnectAttempts := by omega
      simp [afterCloses, openState, stepFn, connect, disconnect, closedState,
        hr, hmax]
    · have hn1 : 1 ≤ n := by omega
      have hn2 : n ≤ cfg.maxReconnectAttempts := by omega
      have hnle : ¬ (cfg.maxReconnectAttempts ≤ n) := by omega
      have hlt : n < cfg.maxReconnectAttempts := by omega
      have heq := ih hn1 hn2
      show stepFn cfg (stepFn cfg (afterCloses cfg n) (.reconnectFire true))
        .closeSignal = closedState cfg (n + 1)
      rw [heq]
      simp [stepFn, connect, disconnect, closedState, hr, hnle, hlt]

/-!  Claim theorems. -/

/-- Claim C1: once the hook's unmount cleanup (teardown) has run, every
subsequent event — including the firing of a heartbeat interval or a
reconnect timeout that was scheduled before teardown — leaves the state
untouched: both timers are cleared (so neither can fire), and neither
`lastMessage` nor the count of sent ping frames ever changes again. -/
theorem teardown_no_timer_fires (cfg : WSConfig) (s : WSState)
    (trace : List Step) :
    runSteps cfg (stepFn cfg s .unmountCleanup) trace =
      stepFn cfg s .unmountCleanup
    ∧ (stepFn cfg s .unmountCleanup).reconnectTimeout = none
    ∧ (stepFn cfg s .unmountCleanup).pingInterval = false
    ∧ (runSteps cfg (stepFn cfg s .unmountCleanup) trace).lastMessage =
        (stepFn cfg s .unmountCleanup).lastMessage
    ∧ (runSteps cfg (stepFn cfg s .unmountCleanup) trace).sentPings =
        (stepFn cfg s .unmountCleanup).sentPings := by
  have ht := unmount_tornDown cfg s
  have hrun := runSteps_tornDown cfg _ ht trace
  exact ⟨hrun, ht.2.2.1, ht.2.2.2, by rw [hrun], by rw [hrun]⟩

/-- Claim C2: for every attempt number n with 1 ≤ n ≤ the attempt cap, the
reconnect delay scheduled after the n-th consecutive close equals
min(base * 2^(n-1), 30000); with base = 1000 the first six delays are
1000, 2000, 4000, 8000, 16000, 30000. -/
theorem backoff_schedule (cfg : WSConfig) (n : Nat) (hr : cfg.reconnect = true)
    (h1 : 1 ≤ n) (h2 : n ≤ cfg.maxReconnectAttempts) :
    (afterCloses cfg n).reconnectTimeout =
      some (min (cfg.reconnectInterval * 2 ^ (n - 1)) 30000)
    ∧ (List.range 6).map (fun k =>
        (afterCloses { reconnectInterval := 1000 } (k + 1)).reconnectTimeout) =
      [some 1000, some 2000, some 4000, some 8000, some 16000, some 30000] := by
  refine ⟨?_, by decide⟩
  rw [afterCloses_eq cfg hr n h1 h2]
  rfl

/-- Claim C2, witness: the sixth consecutive close with base 1000 schedules
min(1000 * 2^5, 30000) = 30000. -/
theorem backoff_schedule_witness :
    ({ reconnectInterval := 1000 } : WSConfig).reconnect = true
    ∧ 1 ≤ 6
    ∧ 6 ≤ ({ reconnectInterval := 1000 } : WSConfig).maxReconnectAttempts
    ∧ (afterCloses { reconnectInterval := 1000 } 6).reconnectTimeout =
        some (min (1000 * 2 ^ (6 - 1)) 30000) := by
  refine ⟨rfl, by decide, by decide, ?_⟩
  exact (backoff_schedule { reconnectInterval := 1000 } 6 rfl (by decide)
    (by decide)).1

/-- Claim C3: starting from a store with pairwise-distinct question ids,
any sequence of `new_question` events keeps the ids pairwise distinct: an
event whose id is already present leaves the store unchanged, and otherwise
the new question is inserted at the front. -/
theorem new_question_unique_ids (store : List Question) (h : noDupIds store)
    (evs : List Question) :
    noDupIds (applyNewQuestions store evs)
    ∧ (∀ d, containsId store d.question_id = true →
        applyNewQuestion d store = store)
    ∧ (∀ d, containsId store d.question_id = false →
        applyNewQuestion d store = d :: store) :=
  ⟨applyNewQuestions_noDupIds evs store h,
   fun d hd => applyNewQuestion_mem d store hd,
   fun d hd => applyNewQuestion_not_mem d store hd⟩

/-- Claim C3, witness. -/
theorem new_question_unique_ids_witness :
    noDupIds [exPending]
    ∧ noDupIds (applyNewQuestions [exPending] [exPending, exAnswered])
    ∧ applyNewQuestion exPending [exPending] = [exPending]
    ∧ applyNewQuestion exAnswered [exPending] = exAnswered :: [exPending] := by
  refine ⟨by decide, ?_, ?_, ?_⟩
  · exact (new_question_unique_ids [exPending] (by decide)
      [exPending, exAnswered]).1
  · exact (new_question_unique_ids [exPending] (by decide) []).2.1
      exPending (by decide)
  · exact (new_question_unique_ids [exPending] (by decide) []).2.2
      exAnswered (by decide)

/-- Claim C8: while the attempt counter is below the cap, any transport
failure — a close signal during `CONNECTING` (connect failure) or while
`OPEN` (abnormal close) — schedules a backoff reconnect and bumps the
counter; at the cap, a close leaves the manager disconnected with nothing
scheduled (the persistent failure is visible only through `isConnected`),
and `connect()` is a no-op. -/
theorem transport_failure_policy (cfg : WSConfig) (s : WSState)
    (phase : SocketPhase) (ok : Bool) (hr : cfg.reconnect = true)
    (hm : s.isMounted = true) (hw : s.ws = some phase) :
    (s.reconnectAttempts < cfg.maxReconnectAttempts →
      stepFn cfg s .closeSignal =
        { s with ws := none, isConnected := false, pingInterval := false,
                 reconnectAttempts := s.reconnectAttempts + 1,
                 reconnectTimeout := some (backoffDelay cfg.reconnectInterval
                   (s.reconnectAttempts + 1)) })
    ∧ (cfg.maxReconnectAttempts ≤ s.reconnectAttempts →
      stepFn cfg s .closeSignal =
        { s with ws := none, isConnected := false, pingInterval := false })
    ∧ (cfg.maxReconnectAttempts ≤ s.reconnectAttempts →
      stepFn cfg s (.connectCall ok) = s) := by
  refine ⟨fun hlt => ?_, fun hge => ?_, fun hge => ?_⟩
  · simp [stepFn, hw, hm, hr, hlt]
  · have hnlt : ¬ (s.reconnectAttempts < cfg.maxReconnectAttempts) :=
      Nat.not_lt.mpr hge
    simp [stepFn, hw, hm, hnlt]
  · simp [stepFn, connect, hge]

/-- A manager instance that has exhausted its attempt cap. -/
def capState : WSState :=
  { isMounted := true, isConnected := true, lastMessage := none,
    ws := some .opened, reconnectTimeout := none, pingInterval := true,
    reconnectAttempts := 10, sentPings := 0 }

/-- Claim C8, witness. -/
theorem transport_failure_policy_witness :
    openState.reconnectAttempts < ({} : WSConfig).maxReconnectAttempts
    ∧ stepFn {} openState .closeSignal =
      { openState with
        ws := none
        isConnected := false
        pingInterval := false
        reconnectAttempts := 1
        reconnectTimeout := some (backoffDelay 3000 1) }
    ∧ ({} : WSConfig).maxReconnectAttempts ≤ capState.reconnectAttempts
    ∧ stepFn {} capState .closeSignal =
      { capState with
        ws := none
        isConnected := false
        pingInterval := false }
    ∧ stepFn {} capState (.connectCall true) = capState := by
  refine ⟨by decide, ?_, by decide, ?_, ?_⟩
  · exact (transport_failure_policy {} openState .opened true rfl rfl rfl).1
      (by decide)
  · exact (transport_failure_policy {} capState .opened true rfl rfl
      rfl).2.1 (by decide)
  · exact (transport_failure_policy {} capState .opened true rfl rfl
      rfl).2.2 (by decide)

/-- Claim C9: immediately after the transport signals a successful open the
attempt counter is reset to zero, so the next failure schedules the base
delay again (min(base * 2^0, 30000), i.e. the base whenever it does not
exceed the cap). -/
theorem open_resets_backoff (cfg : WSConfig) (s : WSState)
    (hm : s.isMounted = true) (hw : s.ws = some SocketPhase.connecting)
    (hr : cfg.reconnect = true) (hmax : 0 < cfg.maxReconnectAttempts) :
    (stepFn cfg s .openSignal).reconnectAttempts = 0
    ∧ (stepFn cfg (stepFn cfg s .openSignal) .closeSignal).reconnectTimeout =
        some (backoffDelay cfg.reconnectInterval 1)
    ∧ (cfg.reconnectInterval ≤ 30000 →
        backoffDelay cfg.reconnectInterval 1 = cfg.reconnectInterval) := by
  have h1 : stepFn cfg s .openSignal =
      { s with
        ws := some SocketPhase.opened
        reconnectAttempts := 0
        isConnected := true
        pingInterval := true } := by
    simp [stepFn, hw, hm]
  refine ⟨by rw [h1], ?_, fun hb => ?_⟩
  · rw [h1]
    simp [stepFn, hm, hr, hmax]
  · unfold backoffDelay
    simp
    omega

/-- A manager mid-reconnect: socket in `CONNECTING`, five attempts used. -/
def connectingState : WSState :=
  { isMounted := true, isConnected := false, lastMessage := none,
    ws := some .connecting, reconnectTimeout := none, pingInterval := false,
    reconnectAttempts := 5, sentPings := 0 }

/-- Claim C9, witness. -/
theorem open_resets_backoff_witness :
    (stepFn {} connectingState .openSignal).reconnectAttempts = 0
    ∧ (stepFn {} (stepFn {} connectingState .openSignal)
        .closeSignal).reconnectTimeout = some (backoffDelay 3000 1)
    ∧ backoffDelay 3000 1 = 3000 := by
  refine ⟨?_, ?_, ?_⟩
  · exact (open_resets_backoff {} connectingState rfl rfl rfl
      (by decide)).1
  · exact (open_resets_backoff {} connectingState rfl rfl rfl
      (by decide)).2.1
  · exact (open_resets_backoff {} connectingState rfl rfl rfl
      (by decide)).2.2 (by decide)

/-- Claim C5: the consumer-facing question list is a pure projection of the
store — a permutation of the stored list, ordered primarily by status rank
(Escalated 3 > Pending 2 > Answered 1) and secondarily by creation timestamp
descending among equal ranks; on the three-question example
[Answered@t1, Pending@t2, Escalated@t3] with t1 < t2 < t3 the projected
order is [Escalated@t3, Pending@t2, Answered@t1].  Being a pure function of
the stored list, the projection cannot mutate the stored order. -/
theorem priority_projection_ordering :
    (∀ l : List Question, (prioritySort l).Perm l)
    ∧ (∀ l : List Question, List.Sorted priorityGE (prioritySort l))
    ∧ prioritySort [exAnswered, exPending, exEscalated] =
        [exEscalated, exPending, exAnswered] := by
  refine ⟨fun l => List.perm_insertionSort priorityGE l,
          fun l => List.sorted_insertionSort priorityGE l, ?_⟩
  decide

/-- Claim C6: a frame whose payload fails to parse is dropped by the
`onmessage` handler — the manager state (in particular `lastMessage`) is
unchanged, the question store fold ignores the frame, and the handler is a
total function (the parse error is caught, never propagated). -/
theorem malformed_frame_dropped (cfg : WSConfig) (s : WSState) (err : String)
    (store : List Question) :
    stepFn cfg s (.messageSignal (.error err)) = s
    ∧ framesToStore store [Except.error err] = store := by
  constructor
  · unfold stepFn
    rcases hws : s.ws with _ | p <;> simp [hws]
  · simp [framesToStore]

/-- Claim C4: an `answer_added` or `question_status_changed` event replaces
the full record of exactly the questions whose `question_id` matches the
event data, preserves the length and the position/record of every other
question, and leaves the store entirely unchanged when no stored question
has that id. -/
theorem replace_by_id_frame (store : List Question) (d : Question) :
    useQuestionsStep store "answer_added" (.obj d) =
      some (applyReplaceById d store)
    ∧ useQuestionsStep store "question_status_changed" (.obj d) =
      some (applyReplaceById d store)
    ∧ (applyReplaceById d store).length = store.length
    ∧ (∀ i : Nat, (applyReplaceById d store)[i]? =
        (store[i]?).map (fun q =>
          if q.question_id == d.question_id then d else q))
    ∧ (containsId store d.question_id = false →
        applyReplaceById d store = store) := by
  refine ⟨by simp [useQuestionsStep], by simp [useQuestionsStep],
          by simp [applyReplaceById], fun i => ?_, fun hno => ?_⟩
  · simp [applyReplaceById, List.getElem?_map]
  · have hq := (containsId_false_iff store d.question_id).mp hno
    unfold applyReplaceById
    have : ∀ q ∈ store,
        (if q.question_id == d.question_id then d else q) = q := by
      intro q hqm
      simp [hq q hqm]
    rw [List.map_congr_left this]
    exact List.map_id' store

/-- Claim C4, witness. -/
theorem replace_by_id_frame_witness :
    containsId [exPending] exAnswered.question_id = false ∧
    applyReplaceById exAnswered [exPending] = [exPending] :=
  ⟨by decide, (replace_by_id_frame [exPending] exAnswered).2.2.2.2 (by decide)⟩

/-- Claim C7: a well-formed event whose `type` matches none of the known
tags replaces the whole store when its `data` is an array, and is ignored
(store unchanged) otherwise. -/
theorem unknown_type_fallback (store : List Question) (t : String)
    (h : t ∉ ["initial_data", "questions_list", "questions", "new_question",
      "answer_added", "question_status_changed", "refresh_data", "pong"]) :
    (∀ qs, useQuestionsStep store t (.arr qs) = some qs)
    ∧ (∀ q, useQuestionsStep store t (.obj q) = some store)
    ∧ useQuestionsStep store t .nullish = some store := by
  simp only [List.mem_cons, List.mem_singleton, not_or] at h
  obtain ⟨h1, h2, h3, h4, h5, h6, h7, h8, -⟩ := h
  refine ⟨fun qs => ?_, fun q => ?_, ?_⟩ <;>
    simp [useQuestionsStep, h1, h2, h3, h4, h5, h6, h7, h8]

/-- Claim C7, witness. -/
theorem unknown_type_fallback_witness :
    ("server_notice" ∉ ["initial_data", "questions_list", "questions",
      "new_question", "answer_added", "question_status_changed",
      "refresh_data", "pong"])
    ∧ useQuestionsStep [exPending] "server_notice" (.arr [exAnswered]) =
        some [exAnswered]
    ∧ useQuestionsStep [exPending] "server_notice" (.obj exAnswered) =
        some [exPending]
    ∧ useQuestionsStep [exPending] "server_notice" .nullish =
        some [exPending] := by
  refine ⟨by decide, ?_, ?_, ?_⟩
  · exact (unknown_type_fallback [exPending] "server_notice" (by decide)).1
      [exAnswered]
  · exact (unknown_type_fallback [exPending] "server_notice" (by decide)).2.1
      exAnswered
  · exact (unknown_type_fallback [exPending] "server_notice" (by decide)).2.2

/-- Claim C10: `Backend.getUser` never rejects — for every outcome of the
underlying `GET /api/auth/me` call it resolves, with the parsed user data
when `fetchAPI` fulfills and with `null` when `fetchAPI` rejects for any
reason (network error, malformed body, or non-OK response). -/
theorem getUser_never_rejects (o : Except String FetchResponse) :
    (∃ v, getUser o = .ok v)
    ∧ (∀ d, fetchAPI o = .ok d → getUser o = .ok (some d))
    ∧ (∀ e, fetchAPI o = .error e → getUser o = .ok none) := by
  refine ⟨?_, fun d hd => ?_, fun e he => ?_⟩
  · unfold getUser
    rcases h : fetchAPI o with e | d
    · exact ⟨none, rfl⟩
    · exact ⟨some d, rfl⟩
  · simp [getUser, hd]
  · simp [getUser, he]

/-- Claim C10, witness: a network error and a non-OK response both resolve
to `null`, a successful call resolves to the data. -/
theorem getUser_never_rejects_witness :
    (fetchAPI (.error "network down") = .error "network down"
      → getUser (.error "network down") = .ok none)
    ∧ getUser (.error "network down") = .ok none
    ∧ getUser (.ok ⟨true, .ok ⟨none, "me"⟩⟩) = .ok (some ⟨none, "me"⟩)
    ∧ getUser (.ok ⟨false, .ok ⟨some "bad token", ""⟩⟩) = .ok none := by
  refine ⟨(getUser_never_rejects (.error "network down")).2.2 "network down",
          ?_, ?_, ?_⟩
  · exact (getUser_never_rejects (.error "network down")).2.2
      "network down" rfl
  · exact (getUser_never_rejects (.ok ⟨true, .ok ⟨none, "me"⟩⟩)).2.1
      ⟨none, "me"⟩ rfl
  · exact (getUser_never_rejects (.ok ⟨false, .ok ⟨some "bad token", ""⟩⟩)).2.2
      "bad token" rfl
